import Mathlib

/-!
Verification of `Err` (NATS/err.go): connect, publish to a reserved subject,
report `LastError`.

The function under study is a straight line of calls into the `nats.go` client
library and the Go standard library (`log`, `fmt`, `time`).  The embedding keeps
that shape:

* `Go α` is the behaviour of Go code running on one goroutine: the effects it
  performs, in order, and whether it returns or ends the process (`os.Exit`).
* `Proc α` is the behaviour of the whole process: a state transformer on the
  process trace (every effect tagged with the goroutine that performed it) and
  the list of live connections.
* `World` is the environment the code cannot control: what the broker and the
  library answer to each call, and which asynchronous errors the library raises
  (and hands to the registered callback) while the main sequence is busy. What
  `LastError` answers may depend on the errors raised up to the moment it is
  called.

`Err` itself is translated statement by statement.
-/

set_option autoImplicit false

namespace NatsErr

/-! ## Go values -/

/-- A non-nil Go `error`: all the program ever does with one is format it, so it
is identified with the text its `Error()` method returns. -/
structure GoError where
  text : String
deriving DecidableEq

/-- A value of Go's interface type `error`: `none` is `nil`. -/
abbrev error := Option GoError

/-- Identity of a `*nats.Conn`. -/
abbrev ConnId := Nat

/-- Identity of a `*nats.Subscription`. -/
abbrev SubId := Nat

/-- An operand of a `fmt` call (`...interface{}`), for the two dynamic types
that occur in the program. -/
inductive Operand where
  | str (s : String)
  | err (e : error)
deriving DecidableEq

/-! ## Effects of one goroutine -/

/-- Observable effects. `logOutput msg` is the message handed to the standard
logger (which writes it, after its date/time header, as one line on standard
error); `stdoutWrite s` is a write of `s` to standard output. -/
inductive Effect where
  | logOutput (msg : String)
  | osExit (code : Nat)
  | stdoutWrite (s : String)
  | publish (nc : ConnId) (subj : String) (data : List UInt8)
  | flush (nc : ConnId)
  | sleep (d : Int)
  | lastError (nc : ConnId)
deriving DecidableEq

/-- How a call ends: it returns a value, or the process was terminated with an
exit status before it could return. -/
inductive Outcome (α : Type) where
  | returned (a : α)
  | exited (code : Nat)
deriving DecidableEq

/-- Behaviour of Go code on one goroutine. -/
structure Go (α : Type) where
  effects : List Effect
  outcome : Outcome α

/-- Return without effect. -/
def Go.pure {α : Type} (a : α) : Go α := ⟨[], .returned a⟩

/-- Sequencing: what follows a terminated process never runs. -/
def Go.bind {α β : Type} (m : Go α) (f : α → Go β) : Go β :=
  match m.outcome with
  | .returned a => ⟨m.effects ++ (f a).effects, (f a).outcome⟩
  | .exited c => ⟨m.effects, .exited c⟩

instance : Monad Go where
  pure := Go.pure
  bind := Go.bind

/-- Perform one effect and return. -/
def Go.emit (e : Effect) : Go Unit := ⟨[e], .returned ()⟩

/-! ## `fmt`, `log`, `os` -/

namespace fmt

/-- The verb `%s` applied to one operand. -/
def formatS : Operand → String
  | .str s => s
  | .err (some e) => e.text
  | .err none => "%!s(<nil>)"

/-- The verb `%v` applied to one operand (what `Println` uses). -/
def formatV : Operand → String
  | .str s => s
  | .err (some e) => e.text
  | .err none => "<nil>"

/-- Expansion of a format string in which `%s` is the only verb used. -/
def sprintfAux : List Char → List Operand → List Char
  | '%' :: 's' :: cs, a :: as => (formatS a).toList ++ sprintfAux cs as
  | '%' :: 's' :: cs, [] => "%!s(MISSING)".toList ++ sprintfAux cs []
  | c :: cs, as => c :: sprintfAux cs as
  | [], _ => []

/-- The function `fmt.Sprintf`, for formats whose only verb is `%s`. -/
def Sprintf (format : String) (a : List Operand) : String :=
  String.mk (sprintfAux format.toList a)

/-- The function `fmt.Sprintln`: operands in `%v` form, a space between any two
of them, a newline at the end. -/
def Sprintln (a : List Operand) : String :=
  " ".intercalate (a.map formatV) ++ "\n"

/-- The function `fmt.Println`: one write of `Sprintln a` to standard output
(its results are discarded by the caller). -/
def Println (a : List Operand) : Go Unit :=
  Go.emit (.stdoutWrite (Sprintln a))

end fmt

namespace os

/-- The function `os.Exit`: the process ends with the given status; nothing
after it runs. -/
def Exit {α : Type} (code : Nat) : Go α := ⟨[.osExit code], .exited code⟩

end os

namespace log

/-- The function `log.Printf`: hand the formatted message to the standard
logger. -/
def Printf (format : String) (v : List Operand) : Go Unit :=
  Go.emit (.logOutput (fmt.Sprintf format v))

/-- The function `log.Fatalf`: `Printf` followed by `os.Exit(1)`. -/
def Fatalf (format : String) (v : List Operand) : Go Unit := do
  Printf format v
  os.Exit 1

end log

namespace time

/-- The constant `time.Second`, a `Duration` in nanoseconds. -/
def Second : Int := 1000000000

end time

/-- The conversion `[]byte(s)`: the UTF-8 bytes of `s`. -/
def bytes (s : String) : List UInt8 := s.toUTF8.data.toList

/-! ## The `nats` client: data -/

namespace nats

/-- Type of the asynchronous error callback (`nats.ErrHandler`): it receives the
connection, the subscription (or nil) and the error. -/
abbrev ErrHandler := ConnId → Option SubId → error → Go Unit

/-- The part of `nats.Options` that the program sets. -/
structure Options where
  AsyncErrorCB : Option ErrHandler

/-- Options before any option function is applied: no callback. -/
def GetDefaultOptions : Options := ⟨none⟩

/-- A connect option (`nats.Option`): a function that edits the options. -/
abbrev Option := Options → Options

/-- The option `nats.ErrorHandler(cb)`: install `cb` as the asynchronous error
callback. -/
def ErrorHandler (cb : ErrHandler) : nats.Option :=
  fun o => { o with AsyncErrorCB := some cb }

/-- A connection (`*nats.Conn`): its identity and the options it was opened
with. -/
structure Conn where
  id : ConnId
  Opts : Options

end nats

/-! ## The process -/

/-- Goroutine that performed an effect: the main sequence, or the library's
callback dispatcher. -/
inductive Thread where
  | main
  | callback
deriving DecidableEq

/-- One entry of the process trace. -/
inductive Event where
  | connect (url : String) (o : nats.Options)
  | eff (t : Thread) (e : Effect)

/-- State of the process: everything that happened so far, the connections
that are open, and the asynchronous errors the library has raised so far on
each connection, oldest first. -/
structure ProcState where
  trace : List Event
  conns : List nats.Conn
  raised : List (ConnId × (Option SubId × GoError))

/-- A process that has not done anything yet. -/
def ProcState.init : ProcState := ⟨[], [], []⟩

/-- The asynchronous errors raised so far on connection `nc`, oldest first. -/
def raisedOn (nc : ConnId) (l : List (ConnId × (Option SubId × GoError))) :
    List (Option SubId × GoError) :=
  l.filterMap (fun x => if x.1 = nc then some x.2 else none)

/-- Behaviour of code at the level of the process. -/
def Proc (α : Type) : Type := ProcState → Outcome α × ProcState

/-- Return without effect. -/
def Proc.pure {α : Type} (a : α) : Proc α := fun s => (.returned a, s)

/-- Sequencing: what follows a terminated process never runs. -/
def Proc.bind {α β : Type} (m : Proc α) (f : α → Proc β) : Proc β := fun s =>
  match m s with
  | (.returned a, s1) => f a s1
  | (.exited c, s1) => (.exited c, s1)

instance : Monad Proc where
  pure := Proc.pure
  bind := Proc.bind

/-- Run single-goroutine code on goroutine `t`: its effects join the process
trace, tagged with `t`. -/
def Proc.onThread {α : Type} (t : Thread) (m : Go α) : Proc α := fun s =>
  (m.outcome, { s with trace := s.trace ++ m.effects.map (Event.eff t) })

/-- Code written in the body of `Err` runs on the main goroutine. -/
instance : MonadLift Go Proc where
  monadLift m := Proc.onThread .main m

/-- Points of the main sequence during which the library's goroutines run. -/
inductive Phase where
  | publish
  | flush
  | sleep
  | lastError
deriving DecidableEq

/-- Everything outside the program's control. The broker and the library decide
what each call answers; `async nc p` lists the asynchronous errors (with the
subscription concerned, if any) that the library raises on connection `nc`, and
hands to its callback, while the main sequence is in phase `p`.
`lastErrorAfter nc hist` is what `LastError` answers on `nc` when it is called
after the errors `hist` (oldest first) were raised; whatever else happened to
the connection by then (a reconnect, which clears the recorded error) is part
of the world. -/
structure World where
  DefaultURL : String
  connect : String → nats.Options → Except GoError ConnId
  publish : ConnId → String → List UInt8 → error
  flush : ConnId → error
  lastErrorAfter : ConnId → List (Option SubId × GoError) → error
  async : ConnId → Phase → List (Option SubId × GoError)

/-- The library notes that an asynchronous error was raised on `nc`. -/
def raise (nc : ConnId) (x : Option SubId × GoError) : Proc Unit := fun s =>
  (.returned (), { s with raised := s.raised ++ [(nc, x)] })

/-- The library's dispatcher for one connection: each asynchronous error is
raised and then passed to `Opts.AsyncErrorCB` when one is installed, on the
callback goroutine. -/
def deliver (nc : nats.Conn) : List (Option SubId × GoError) → Proc Unit
  | [] => Proc.pure ()
  | (sub, e) :: rest =>
    Proc.bind (raise nc.id (sub, e)) (fun _ =>
      match nc.Opts.AsyncErrorCB with
      | none => deliver nc rest
      | some cb => Proc.bind (Proc.onThread .callback (cb nc.id sub (some e)))
          (fun _ => deliver nc rest))

/-- Dispatch for each connection in a list. -/
def deliverAll (w : World) (p : Phase) : List nats.Conn → Proc Unit
  | [] => Proc.pure ()
  | nc :: rest => Proc.bind (deliver nc (w.async nc.id p)) (fun _ => deliverAll w p rest)

/-- What the library's goroutines do while the main sequence is in phase `p`. -/
def background (w : World) (p : Phase) : Proc Unit := fun s =>
  deliverAll w p s.conns s

namespace nats

/-- The function `nats.Connect(url, options...)`: apply the options to the
defaults and dial. On success the connection is open from then on. -/
def Connect (w : World) (url : String) (options : List nats.Option) :
    Proc (Except GoError Conn) := fun s =>
  let o := options.foldl (fun acc opt => opt acc) GetDefaultOptions
  let s1 := { s with trace := s.trace ++ [Event.connect url o] }
  match w.connect url o with
  | .error e => (.returned (.error e), s1)
  | .ok id => (.returned (.ok ⟨id, o⟩), { s1 with conns := s1.conns ++ [⟨id, o⟩] })

/-- The method `nc.Publish(subj, data)`. -/
def Conn.Publish (w : World) (nc : Conn) (subj : String) (data : List UInt8) :
    Proc error := do
  Proc.onThread .main (Go.emit (.publish nc.id subj data))
  background w .publish
  return w.publish nc.id subj data

/-- The method `nc.Flush()`. -/
def Conn.Flush (w : World) (nc : Conn) : Proc error := do
  Proc.onThread .main (Go.emit (.flush nc.id))
  background w .flush
  return w.flush nc.id

/-- The answer of the library to a call of `LastError` made now: it depends on
the errors raised on the connection up to this moment. -/
def Conn.readLastError (w : World) (nc : Conn) : Proc error := fun s =>
  (.returned (w.lastErrorAfter nc.id (raisedOn nc.id s.raised)), s)

/-- The method `nc.LastError()`. -/
def Conn.LastError (w : World) (nc : Conn) : Proc error := do
  Proc.onThread .main (Go.emit (.lastError nc.id))
  let le ← Conn.readLastError w nc
  background w .lastError
  return le

end nats

namespace time

/-- The function `time.Sleep(d)`. -/
def Sleep (w : World) (d : Int) : Proc Unit := do
  Proc.onThread .main (Go.emit (.sleep d))
  background w .sleep

end time

/-! ## The program -/

/-- The function literal passed to `nats.ErrorHandler` in `Err`. -/
def ErrAsyncErrorCB : nats.ErrHandler := fun _ _ err =>
  log.Printf "Async Error: %s" [.err err]

/-- The function `Err` of NATS/err.go. -/
def Err (w : World) : Proc Unit := do
  let r ← nats.Connect w w.DefaultURL [nats.ErrorHandler ErrAsyncErrorCB]
  match r with
  | .error err => log.Fatalf "Error: %s" [.err (some err)]
  | .ok nc =>
    -- _SYS is reserved
    let _ ← nc.Publish w "_SYS.hi" (bytes "hi")
    let _ ← nc.Flush w
    time.Sleep w (1 * time.Second)
    let le ← nc.LastError w
    fmt.Println [.str "nc.LastError: ", .err le]


/-! ## Reading a trace -/

/-- The options `Err` connects with: the defaults with its callback installed. -/
def ErrOptions : nats.Options := ⟨some ErrAsyncErrorCB⟩

/-- The answer of the connect call made by `Err`. -/
def connectResult (w : World) : Except GoError ConnId :=
  w.connect w.DefaultURL ErrOptions

/-- Is this entry a call of `nats.Connect`? -/
def Event.isConnect : Event → Bool
  | .connect _ _ => true
  | _ => false

/-- Was this entry performed by the callback dispatcher? -/
def Event.isCallback : Event → Bool
  | .eff .callback _ => true
  | _ => false

/-- Is this entry a publish? -/
def Event.isPublish : Event → Bool
  | .eff _ (.publish _ _ _) => true
  | _ => false

/-- Is this entry a flush? -/
def Event.isFlush : Event → Bool
  | .eff _ (.flush _) => true
  | _ => false

/-- Is this entry a delay? -/
def Event.isSleep : Event → Bool
  | .eff _ (.sleep _) => true
  | _ => false

/-- Is this entry a read of `LastError`? -/
def Event.isLastError : Event → Bool
  | .eff _ (.lastError _) => true
  | _ => false

/-- The text written to standard output by this entry, if any. -/
def Event.stdout? : Event → Option String
  | .eff _ (.stdoutWrite s) => some s
  | _ => none

/-- The connection a publish, flush or `LastError` entry is issued on. -/
def Event.conn? : Event → Option ConnId
  | .eff _ (.publish nc _ _) => some nc
  | .eff _ (.flush nc) => some nc
  | .eff _ (.lastError nc) => some nc
  | _ => none

/-- The main sequence: the trace without the entries of the callback
dispatcher. -/
def mainSeq (tr : List Event) : List Event := tr.filter (fun ev => !ev.isCallback)

/-- Everything written to standard output, in order. -/
def stdoutWrites (tr : List Event) : List String := tr.filterMap Event.stdout?

/-- The entries the dispatcher adds when it passes each of `errs` to
`ErrAsyncErrorCB`. -/
def observerLog (errs : List (Option SubId × GoError)) : List Event :=
  errs.map (fun x => Event.eff .callback (.logOutput ("Async Error: " ++ x.2.text)))

/-- The errors passed to the callback of connection `nc` before the delay has
elapsed. -/
def observedBeforeReport (w : World) (nc : ConnId) : List (Option SubId × GoError) :=
  w.async nc .publish ++ w.async nc .flush ++ w.async nc .sleep

/-- What `LastError` answers on `nc` once the delay has elapsed, that is, after
the errors of the publish, flush and sleep phases. -/
def World.lastError (w : World) (nc : ConnId) : error :=
  w.lastErrorAfter nc (observedBeforeReport w nc)

/-- The library keeps, as `LastError`, the most recent asynchronous error it
raised on `nc`, and nothing replaces or clears it: this is what `nats.go` does
on a connection that stays up. -/
def RecordsLastRaised (w : World) (nc : ConnId) : Prop :=
  ∀ hist, w.lastErrorAfter nc hist = hist.getLast?.map Prod.snd

/-- The same world, except that publish and flush answer `p` and `f`. -/
def World.withResults (w : World) (p f : error) : World :=
  { w with publish := fun _ _ _ => p, flush := fun _ => f }

/-- Modelled from the spec: the process entry point, which is not in the source.
The process runs `Err` and nothing else, so it ends with status 0 when `Err`
returns and with the status given to `os.Exit` otherwise. -/
def exitStatus : Outcome Unit → Nat
  | .returned _ => 0
  | .exited c => c

/-- A run of `Err` in a fresh process: how it ends, and the final state. -/
def runErr (w : World) : Outcome Unit × ProcState := Err w ProcState.init

/-- A world with a broker listening: connect succeeds with connection 1, publish
and flush succeed, `LastError` answers `le`, and the library passes `during` to
the callback while the main sequence sleeps. -/
def liveWorld (le : error) (during : List (Option SubId × GoError)) : World where
  DefaultURL := "nats://127.0.0.1:4222"
  connect := fun _ _ => .ok 1
  publish := fun _ _ _ => none
  flush := fun _ => none
  lastErrorAfter := fun _ _ => le
  async := fun _ p => if p = .sleep then during else []

/-- A world without a broker: connect fails. -/
def deadWorld : World where
  DefaultURL := "nats://127.0.0.1:4222"
  connect := fun _ _ => .error ⟨"nats: no servers available for connection"⟩
  publish := fun _ _ _ => none
  flush := fun _ => none
  lastErrorAfter := fun _ _ => none
  async := fun _ _ => []

/-- The error a broker sends when the reserved subject is refused. -/
def permErr : GoError := ⟨"nats: permissions violation for publish"⟩

/-- An error that a library call can answer. -/
def staleErr : GoError := ⟨"nats: stale connection"⟩

/-- A world in which the broker refuses the publish, the library raises the
permissions error while the main sequence sleeps, and the connection stays
up: `LastError` answers the most recent error raised. -/
def refusedWorld : World where
  DefaultURL := "nats://127.0.0.1:4222"
  connect := fun _ _ => .ok 1
  publish := fun _ _ _ => none
  flush := fun _ => none
  lastErrorAfter := fun _ hist => hist.getLast?.map Prod.snd
  async := fun _ p => if p = .sleep then [(none, permErr)] else []

/-- A world in which the broker refuses the publish and the library raises the
permissions error while the main sequence flushes, but the connection is then
lost and re-established during the delay: reconnecting clears the recorded
error, so `LastError` answers nil. -/
def reconnectWorld : World where
  DefaultURL := "nats://127.0.0.1:4222"
  connect := fun _ _ => .ok 1
  publish := fun _ _ _ => none
  flush := fun _ => none
  lastErrorAfter := fun _ _ => none
  async := fun _ p => if p = .flush then [(none, permErr)] else []

/-- The whole trace of a run whose connect call succeeds. -/
def okTrace (w : World) (id : ConnId) : List Event :=
  [Event.connect w.DefaultURL ErrOptions,
   Event.eff .main (.publish id "_SYS.hi" [104, 105])]
  ++ observerLog (w.async id .publish)
  ++ [Event.eff .main (.flush id)]
  ++ observerLog (w.async id .flush)
  ++ [Event.eff .main (.sleep 1000000000)]
  ++ observerLog (w.async id .sleep)
  ++ [Event.eff .main (.lastError id)]
  ++ observerLog (w.async id .lastError)
  ++ [Event.eff .main (.stdoutWrite
        ("nc.LastError:  " ++ fmt.formatV (.err (w.lastError id)) ++ "\n"))]

/-- The whole trace of a run whose connect call fails with `e`. -/
def failTrace (w : World) (e : GoError) : List Event :=
  [Event.connect w.DefaultURL ErrOptions,
   Event.eff .main (.logOutput ("Error: " ++ e.text)),
   Event.eff .main (.osExit 1)]

/-! ## Behaviour of the pieces -/

theorem Sprintf_asyncError (e : GoError) :
    fmt.Sprintf "Async Error: %s" [.err (some e)] = "Async Error: " ++ e.text := by
  have h : "Async Error: %s".toList
      = ['A','s','y','n','c',' ','E','r','r','o','r',':',' ','%','s'] := by decide
  simp [fmt.Sprintf, h, fmt.sprintfAux, fmt.formatS]
  rfl

theorem Sprintf_fatal (e : GoError) :
    fmt.Sprintf "Error: %s" [.err (some e)] = "Error: " ++ e.text := by
  have h : "Error: %s".toList = ['E','r','r','o','r',':',' ','%','s'] := by decide
  simp [fmt.Sprintf, h, fmt.sprintfAux, fmt.formatS]
  rfl

theorem Sprintln_lastError (le : error) :
    fmt.Sprintln [.str "nc.LastError: ", .err le]
      = "nc.LastError:  " ++ fmt.formatV (.err le) ++ "\n" := by
  have h : fmt.formatV (.str "nc.LastError: ") ++ " " = "nc.LastError:  " := by decide
  simp [fmt.Sprintln, String.intercalate, String.intercalate.go, h]

theorem deliver_ErrAsyncErrorCB (id : ConnId) (errs : List (Option SubId × GoError))
    (s : ProcState) :
    deliver ⟨id, ErrOptions⟩ errs s
      = (.returned (), { s with trace := s.trace ++ observerLog errs,
                                raised := s.raised ++ errs.map (fun x => (id, x)) }) := by
  induction errs generalizing s with
  | nil => simp [deliver, Proc.pure, observerLog]
  | cons x rest ih =>
    obtain ⟨sub, e⟩ := x
    simp [deliver, raise, ErrOptions, Proc.bind, Proc.onThread, ErrAsyncErrorCB, log.Printf,
      Go.emit, Sprintf_asyncError]
    have h := ih { s with trace := s.trace ++ [Event.eff .callback
      (.logOutput ("Async Error: " ++ e.text))], raised := s.raised ++ [(id, (sub, e))] }
    simp [ErrOptions] at h
    simp [h, observerLog]

theorem background_one (w : World) (p : Phase) (id : ConnId) (tr : List Event)
    (r : List (ConnId × (Option SubId × GoError))) :
    background w p ⟨tr, [⟨id, ErrOptions⟩], r⟩
      = (.returned (), ⟨tr ++ observerLog (w.async id p), [⟨id, ErrOptions⟩],
          r ++ (w.async id p).map (fun x => (id, x))⟩) := by
  simp [background, deliverAll, Proc.bind, Proc.pure, deliver_ErrAsyncErrorCB]

theorem raisedOn_map (id : ConnId) (l : List (Option SubId × GoError)) :
    raisedOn id (l.map (fun x => (id, x))) = l := by
  induction l with
  | nil => rfl
  | cons x rest ih =>
    simp only [raisedOn] at ih
    simp [raisedOn, List.filterMap_cons, ih]

theorem raisedOn_append (id : ConnId) (a b : List (ConnId × (Option SubId × GoError))) :
    raisedOn id (a ++ b) = raisedOn id a ++ raisedOn id b := by
  simp [raisedOn]

theorem Publish_one (w : World) (id : ConnId) (subj : String) (data : List UInt8)
    (tr : List Event) (r : List (ConnId × (Option SubId × GoError))) :
    nats.Conn.Publish w ⟨id, ErrOptions⟩ subj data ⟨tr, [⟨id, ErrOptions⟩], r⟩
      = (.returned (w.publish id subj data),
          ⟨tr ++ [Event.eff .main (.publish id subj data)] ++ observerLog (w.async id .publish),
            [⟨id, ErrOptions⟩], r ++ (w.async id .publish).map (fun x => (id, x))⟩) := by
  simp [nats.Conn.Publish, bind, Proc.bind, Proc.onThread, Go.emit, background_one, pure,
    Proc.pure]

theorem Flush_one (w : World) (id : ConnId) (tr : List Event)
    (r : List (ConnId × (Option SubId × GoError))) :
    nats.Conn.Flush w ⟨id, ErrOptions⟩ ⟨tr, [⟨id, ErrOptions⟩], r⟩
      = (.returned (w.flush id),
          ⟨tr ++ [Event.eff .main (.flush id)] ++ observerLog (w.async id .flush),
            [⟨id, ErrOptions⟩], r ++ (w.async id .flush).map (fun x => (id, x))⟩) := by
  simp [nats.Conn.Flush, bind, Proc.bind, Proc.onThread, Go.emit, background_one, pure,
    Proc.pure]

theorem LastError_one (w : World) (id : ConnId) (tr : List Event)
    (r : List (ConnId × (Option SubId × GoError))) :
    nats.Conn.LastError w ⟨id, ErrOptions⟩ ⟨tr, [⟨id, ErrOptions⟩], r⟩
      = (.returned (w.lastErrorAfter id (raisedOn id r)),
          ⟨tr ++ [Event.eff .main (.lastError id)] ++ observerLog (w.async id .lastError),
            [⟨id, ErrOptions⟩], r ++ (w.async id .lastError).map (fun x => (id, x))⟩) := by
  simp [nats.Conn.LastError, nats.Conn.readLastError, bind, Proc.bind, Proc.onThread, Go.emit,
    background_one, pure, Proc.pure]

theorem Sleep_one (w : World) (id : ConnId) (d : Int) (tr : List Event)
    (r : List (ConnId × (Option SubId × GoError))) :
    time.Sleep w d ⟨tr, [⟨id, ErrOptions⟩], r⟩
      = (.returned (),
          ⟨tr ++ [Event.eff .main (.sleep d)] ++ observerLog (w.async id .sleep),
            [⟨id, ErrOptions⟩], r ++ (w.async id .sleep).map (fun x => (id, x))⟩) := by
  simp [time.Sleep, bind, Proc.bind, Proc.onThread, Go.emit, background_one]

theorem Err_run_ok (w : World) (id : ConnId) (h : connectResult w = .ok id) :
    Err w ProcState.init = (.returned (), ⟨okTrace w id, [⟨id, ErrOptions⟩],
      (observedBeforeReport w id ++ w.async id .lastError).map (fun x => (id, x))⟩) := by
  have hc : w.connect w.DefaultURL ErrOptions = .ok id := h
  have hb : bytes "hi" = [104, 105] := by decide
  have ho : ({ AsyncErrorCB := some ErrAsyncErrorCB } : nats.Options) = ErrOptions := rfl
  have hr : raisedOn id
      ((w.async id .publish).map (fun x => (id, x)) ++
        ((w.async id .flush).map (fun x => (id, x)) ++
          (w.async id .sleep).map (fun x => (id, x))))
      = w.async id .publish ++ (w.async id .flush ++ w.async id .sleep) := by
    simp only [raisedOn_append, raisedOn_map]
  simp [Err, bind, Proc.bind, nats.Connect, nats.ErrorHandler, nats.GetDefaultOptions, ho, hc,
    ProcState.init, Publish_one, Flush_one, Sleep_one, LastError_one, liftM, monadLift,
    MonadLift.monadLift, Proc.onThread, fmt.Println, Go.emit, Sprintln_lastError, hb, okTrace,
    time.Second, hr, World.lastError, observedBeforeReport]

theorem Err_run_fail (w : World) (e : GoError) (h : connectResult w = .error e) :
    Err w ProcState.init = (.exited 1, ⟨failTrace w e, [], []⟩) := by
  have hc : w.connect w.DefaultURL ErrOptions = .error e := h
  have ho : ({ AsyncErrorCB := some ErrAsyncErrorCB } : nats.Options) = ErrOptions := rfl
  simp [Err, bind, Proc.bind, nats.Connect, nats.ErrorHandler, nats.GetDefaultOptions, ho, hc,
    ProcState.init, liftM, monadLift, MonadLift.monadLift, Proc.onThread, log.Fatalf, log.Printf,
    Go.bind, Go.emit, os.Exit, Sprintf_fatal, failTrace]

/-! ## What the callback dispatcher leaves in a trace -/

theorem observerLog_shape (l : List (Option SubId × GoError)) (ev : Event)
    (h : ev ∈ observerLog l) :
    ∃ e : GoError, ev = Event.eff .callback (.logOutput ("Async Error: " ++ e.text)) := by
  simp only [observerLog, List.mem_map] at h
  obtain ⟨x, _, rfl⟩ := h
  exact ⟨x.2, rfl⟩

theorem observerLog_mainSeq (l : List (Option SubId × GoError)) :
    mainSeq (observerLog l) = [] := by
  unfold mainSeq
  rw [List.filter_eq_nil_iff]
  intro ev hev
  obtain ⟨e, rfl⟩ := observerLog_shape l ev hev
  simp [Event.isCallback]

theorem observerLog_stdout (l : List (Option SubId × GoError)) :
    stdoutWrites (observerLog l) = [] := by
  unfold stdoutWrites
  rw [List.filterMap_eq_nil_iff]
  intro ev hev
  obtain ⟨e, rfl⟩ := observerLog_shape l ev hev
  rfl

theorem observerLog_publish (l : List (Option SubId × GoError)) :
    (observerLog l).filter Event.isPublish = [] := by
  rw [List.filter_eq_nil_iff]
  intro ev hev
  obtain ⟨e, rfl⟩ := observerLog_shape l ev hev
  simp [Event.isPublish]

theorem observerLog_connect (l : List (Option SubId × GoError)) :
    (observerLog l).countP Event.isConnect = 0 := by
  rw [List.countP_eq_zero]
  intro ev hev
  obtain ⟨e, rfl⟩ := observerLog_shape l ev hev
  simp [Event.isConnect]

theorem observerLog_conn (l : List (Option SubId × GoError)) (ev : Event)
    (h : ev ∈ observerLog l) : ev.conn? = none := by
  obtain ⟨e, rfl⟩ := observerLog_shape l ev h
  rfl

theorem mainSeq_append (a b : List Event) : mainSeq (a ++ b) = mainSeq a ++ mainSeq b := by
  simp [mainSeq]

theorem mainSeq_cons (ev : Event) (l : List Event) :
    mainSeq (ev :: l) = if ev.isCallback then mainSeq l else ev :: mainSeq l := by
  cases h : ev.isCallback <;> simp [mainSeq, List.filter_cons, h]

theorem stdoutWrites_append (a b : List Event) :
    stdoutWrites (a ++ b) = stdoutWrites a ++ stdoutWrites b := by
  simp [stdoutWrites]

theorem stdoutWrites_cons (ev : Event) (l : List Event) :
    stdoutWrites (ev :: l) = (ev.stdout?).toList ++ stdoutWrites l := by
  cases h : ev.stdout? <;> simp [stdoutWrites, List.filterMap_cons, h]

theorem mainSeq_okTrace (w : World) (id : ConnId) :
    mainSeq (okTrace w id)
      = [Event.connect w.DefaultURL ErrOptions,
         Event.eff .main (.publish id "_SYS.hi" [104, 105]),
         Event.eff .main (.flush id),
         Event.eff .main (.sleep 1000000000),
         Event.eff .main (.lastError id),
         Event.eff .main (.stdoutWrite
           ("nc.LastError:  " ++ fmt.formatV (.err (w.lastError id)) ++ "\n"))] := by
  simp [okTrace, mainSeq_append, mainSeq_cons, observerLog_mainSeq, Event.isCallback]
  rfl

theorem stdoutWrites_okTrace (w : World) (id : ConnId) :
    stdoutWrites (okTrace w id)
      = ["nc.LastError:  " ++ fmt.formatV (.err (w.lastError id)) ++ "\n"] := by
  simp [okTrace, stdoutWrites_append, stdoutWrites_cons, observerLog_stdout, Event.stdout?]
  rfl

theorem publish_okTrace (w : World) (id : ConnId) :
    (okTrace w id).filter Event.isPublish
      = [Event.eff .main (.publish id "_SYS.hi" [104, 105])] := by
  simp [okTrace, List.filter_append, List.filter_cons, observerLog_publish, Event.isPublish]

theorem connect_okTrace (w : World) (id : ConnId) :
    (okTrace w id).countP Event.isConnect = 1 := by
  simp [okTrace, List.countP_append, List.countP_cons, observerLog_connect, Event.isConnect]

theorem conn_okTrace (w : World) (id : ConnId) (ev : Event) (c : ConnId)
    (hev : ev ∈ okTrace w id) (hc : ev.conn? = some c) : c = id := by
  simp only [okTrace, List.mem_append, List.mem_cons, List.mem_singleton,
    List.not_mem_nil, or_false] at hev
  have hobs : ∀ l, ev ∈ observerLog l → c = id := by
    intro l hl
    rw [observerLog_conn l ev hl] at hc
    cases hc
  rcases hev with ((((((((h | h) | h) | h) | h) | h) | h) | h) | h) | h
  · subst h; cases hc
  · subst h; cases hc; rfl
  · exact hobs _ h
  · subst h; cases hc; rfl
  · exact hobs _ h
  · subst h; cases hc
  · exact hobs _ h
  · subst h; cases hc; rfl
  · exact hobs _ h
  · subst h; cases hc

theorem observerLog_mem (l : List (Option SubId × GoError)) (sub : Option SubId)
    (e : GoError) (h : (sub, e) ∈ l) :
    Event.eff .callback (.logOutput ("Async Error: " ++ e.text)) ∈ observerLog l := by
  simp only [observerLog, List.mem_map]
  exact ⟨(sub, e), h, rfl⟩

theorem observed_okTrace (w : World) (id : ConnId) (sub : Option SubId) (e : GoError)
    (h : (sub, e) ∈ observedBeforeReport w id) :
    Event.eff .callback (.logOutput ("Async Error: " ++ e.text)) ∈ okTrace w id := by
  simp only [observedBeforeReport, List.mem_append] at h
  simp only [okTrace, List.mem_append]
  rcases h with (h | h) | h
  · exact Or.inl (Or.inl (Or.inl (Or.inl (Or.inl (Or.inl (Or.inl (Or.inr
      (observerLog_mem _ sub e h))))))))
  · exact Or.inl (Or.inl (Or.inl (Or.inl (Or.inl (Or.inr (observerLog_mem _ sub e h))))))
  · exact Or.inl (Or.inl (Or.inl (Or.inr (observerLog_mem _ sub e h))))

/-! ## The claims -/

/-- C1: when the connect call returns an error the run ends there, fatally. The
whole trace is the connect call, the fatal log line and `os.Exit(1)`; there is
no publish, no flush, no delay, no read of `LastError` and nothing is written
to standard output. -/
theorem C1_connect_error_is_fatal (w : World) (e : GoError)
    (h : connectResult w = .error e) :
    (runErr w).1 = .exited 1 ∧
    (runErr w).2.trace
      = [Event.connect w.DefaultURL ErrOptions,
         Event.eff .main (.logOutput ("Error: " ++ e.text)),
         Event.eff .main (.osExit 1)] ∧
    (runErr w).2.trace.countP Event.isPublish = 0 ∧
    (runErr w).2.trace.countP Event.isFlush = 0 ∧
    (runErr w).2.trace.countP Event.isSleep = 0 ∧
    (runErr w).2.trace.countP Event.isLastError = 0 ∧
    stdoutWrites (runErr w).2.trace = [] := by
  rw [runErr, Err_run_fail w e h]
  exact ⟨rfl, rfl, rfl, rfl, rfl, rfl, rfl⟩

theorem C1_witness :
    connectResult deadWorld = .error ⟨"nats: no servers available for connection"⟩ ∧
    (runErr deadWorld).1 = .exited 1 ∧
    (runErr deadWorld).2.trace.countP Event.isPublish = 0 :=
  ⟨rfl, (C1_connect_error_is_fatal deadWorld _ rfl).1,
    (C1_connect_error_is_fatal deadWorld _ rfl).2.2.1⟩

/-- C2: when the connect call succeeds, exactly one publish is issued; it is on
the connection that connect returned, its subject is "_SYS.hi" and its payload
is the two bytes of "hi". -/
theorem C2_one_publish (w : World) (id : ConnId) (h : connectResult w = .ok id) :
    (runErr w).2.trace.filter Event.isPublish
      = [Event.eff .main (.publish id "_SYS.hi" (bytes "hi"))] ∧
    bytes "hi" = [104, 105] := by
  have hb : bytes "hi" = [104, 105] := by decide
  rw [runErr, Err_run_ok w id h, hb]
  exact ⟨publish_okTrace w id, rfl⟩

theorem C2_witness :
    connectResult (liveWorld none []) = .ok 1 ∧
    (runErr (liveWorld none [])).2.trace.filter Event.isPublish
      = [Event.eff .main (.publish 1 "_SYS.hi" (bytes "hi"))] :=
  ⟨rfl, (C2_one_publish (liveWorld none []) 1 rfl).1⟩

/-- C3: when the connect call succeeds, the main sequence is exactly: connect to
the default address with the callback installed in the options, publish, flush,
a delay of 1 second (1000000000 ns), the read of `LastError`, and the print of
the label and the value read; each once, in that order, nothing in between. -/
theorem C3_main_sequence (w : World) (id : ConnId) (h : connectResult w = .ok id) :
    mainSeq (runErr w).2.trace
      = [Event.connect w.DefaultURL ⟨some ErrAsyncErrorCB⟩,
         Event.eff .main (.publish id "_SYS.hi" (bytes "hi")),
         Event.eff .main (.flush id),
         Event.eff .main (.sleep 1000000000),
         Event.eff .main (.lastError id),
         Event.eff .main (.stdoutWrite
           (fmt.Sprintln [.str "nc.LastError: ", .err (w.lastError id)]))] ∧
    time.Second = 1000000000 := by
  have hb : bytes "hi" = [104, 105] := by decide
  rw [runErr, Err_run_ok w id h, hb, Sprintln_lastError]
  exact ⟨mainSeq_okTrace w id, rfl⟩

theorem C3_witness :
    connectResult (liveWorld (some permErr) [(none, permErr)]) = .ok 1 ∧
    mainSeq (runErr (liveWorld (some permErr) [(none, permErr)])).2.trace
      = [Event.connect "nats://127.0.0.1:4222" ⟨some ErrAsyncErrorCB⟩,
         Event.eff .main (.publish 1 "_SYS.hi" (bytes "hi")),
         Event.eff .main (.flush 1),
         Event.eff .main (.sleep 1000000000),
         Event.eff .main (.lastError 1),
         Event.eff .main (.stdoutWrite
           (fmt.Sprintln [.str "nc.LastError: ", .err (some permErr)]))] :=
  ⟨rfl, (C3_main_sequence (liveWorld (some permErr) [(none, permErr)]) 1 rfl).1⟩

/-- C4: when the connect call succeeds, whatever publish and flush answer (an
error or nil each), the run does not abort: the main sequence is still connect,
publish, flush, delay, read, print, `Err` returns, and the run is the same as
with any other answers, so the two results are never propagated. -/
theorem C4_publish_flush_results_ignored (w : World) (id : ConnId) (p f : error)
    (h : connectResult w = .ok id) :
    (runErr (w.withResults p f)).1 = .returned () ∧
    mainSeq (runErr (w.withResults p f)).2.trace
      = [Event.connect w.DefaultURL ErrOptions,
         Event.eff .main (.publish id "_SYS.hi" (bytes "hi")),
         Event.eff .main (.flush id),
         Event.eff .main (.sleep (1 * time.Second)),
         Event.eff .main (.lastError id),
         Event.eff .main (.stdoutWrite
           (fmt.Sprintln [.str "nc.LastError: ", .err (w.lastError id)]))] ∧
    runErr (w.withResults p f) = runErr w := by
  have hb : bytes "hi" = [104, 105] := by decide
  have h2 : connectResult (w.withResults p f) = .ok id := h
  rw [runErr, runErr, Err_run_ok _ id h2, Err_run_ok w id h, hb, Sprintln_lastError]
  exact ⟨rfl, mainSeq_okTrace w id, rfl⟩

theorem C4_witness :
    connectResult (liveWorld none []) = .ok 1 ∧
    (runErr ((liveWorld none []).withResults (some permErr) (some staleErr))).1
      = .returned () :=
  ⟨rfl, (C4_publish_flush_results_ignored (liveWorld none []) 1 (some permErr)
    (some staleErr) rfl).1⟩

/-- C5: the exit status is non-zero exactly when the connect call fails. A
failed connect logs the fatal line "Error: " followed by the error text and
ends the process with status 1; a run whose connect succeeds returns from
`Err` (status 0), and the last thing it did is the print of the report step. -/
theorem C5_exit_status (w : World) :
    (exitStatus (runErr w).1 ≠ 0 ↔ ∃ e, connectResult w = .error e) ∧
    (∀ e, connectResult w = .error e →
      (runErr w).1 = .exited 1 ∧ exitStatus (runErr w).1 = 1 ∧
      Event.eff .main (.logOutput ("Error: " ++ e.text)) ∈ (runErr w).2.trace) ∧
    (∀ id, connectResult w = .ok id →
      (runErr w).1 = .returned () ∧ exitStatus (runErr w).1 = 0 ∧
      (runErr w).2.trace.getLast? = some (Event.eff .main (.stdoutWrite
        (fmt.Sprintln [.str "nc.LastError: ", .err (w.lastError id)])))) := by
  refine ⟨?_, ?_, ?_⟩
  · cases h : connectResult w with
    | error e =>
      rw [runErr, Err_run_fail w e h]
      simp [exitStatus]
    | ok id =>
      rw [runErr, Err_run_ok w id h]
      simp [exitStatus]
  · intro e h
    rw [runErr, Err_run_fail w e h]
    simp [exitStatus, failTrace]
  · intro id h
    rw [runErr, Err_run_ok w id h, Sprintln_lastError]
    exact ⟨rfl, rfl, List.getLast?_concat _⟩

theorem C5_witness :
    (exitStatus (runErr deadWorld).1 ≠ 0 ↔ ∃ e, connectResult deadWorld = .error e) ∧
    exitStatus (runErr deadWorld).1 = 1 ∧
    exitStatus (runErr (liveWorld none [])).1 = 0 :=
  ⟨(C5_exit_status deadWorld).1,
    ((C5_exit_status deadWorld).2.1 ⟨"nats: no servers available for connection"⟩ rfl).2.1,
    ((C5_exit_status (liveWorld none [])).2.2 1 rfl).2.1⟩

/-- C6: when the connect call succeeds, standard output receives exactly one
write, a single `Println`; and when `LastError` reads as a non-nil error with
text e, what is written is "nc.LastError:  " (label, colon, two spaces), then
e, then a newline. -/
theorem C6_one_stdout_line (w : World) (id : ConnId) (h : connectResult w = .ok id) :
    (stdoutWrites (runErr w).2.trace).length = 1 ∧
    stdoutWrites (runErr w).2.trace
      = [fmt.Sprintln [.str "nc.LastError: ", .err (w.lastError id)]] ∧
    ∀ e : GoError, w.lastError id = some e →
      stdoutWrites (runErr w).2.trace = ["nc.LastError:  " ++ e.text ++ "\n"] := by
  rw [runErr, Err_run_ok w id h, Sprintln_lastError, stdoutWrites_okTrace]
  refine ⟨rfl, rfl, ?_⟩
  intro e he
  rw [he]
  rfl

theorem C6_witness :
    connectResult (liveWorld (some permErr) [(none, permErr)]) = .ok 1 ∧
    stdoutWrites (runErr (liveWorld (some permErr) [(none, permErr)])).2.trace
      = ["nc.LastError:  nats: permissions violation for publish\n"] :=
  ⟨rfl, (C6_one_stdout_line (liveWorld (some permErr) [(none, permErr)]) 1 rfl).2.2
    permErr rfl⟩

/-- C7, as the spec states it, fails: with a broker that accepts the publish
and a `LastError` that reads nil, the line written is not the label followed
by a newline only. -/
theorem C7_counterexample :
    connectResult (liveWorld none []) = .ok 1 ∧
    (liveWorld none []).lastError 1 = none ∧
    stdoutWrites (runErr (liveWorld none [])).2.trace ≠ ["nc.LastError:  " ++ "\n"] ∧
    stdoutWrites (runErr (liveWorld none [])).2.trace = ["nc.LastError:  <nil>\n"] := by
  have h : connectResult (liveWorld none []) = .ok 1 := rfl
  rw [runErr, Err_run_ok _ 1 h, stdoutWrites_okTrace]
  exact ⟨rfl, rfl, by decide, by decide⟩

/-- C7, amended: when the connect call succeeds and `LastError` reads nil, the
one line written to standard output is the label "nc.LastError:  " followed by
"<nil>" and a newline, which is how `Println` shows a nil error. -/
theorem C7_nil_lastError_prints_nil (w : World) (id : ConnId)
    (h : connectResult w = .ok id) (hnil : w.lastError id = none) :
    stdoutWrites (runErr w).2.trace = ["nc.LastError:  " ++ "<nil>" ++ "\n"] := by
  rw [runErr, Err_run_ok w id h, stdoutWrites_okTrace, hnil]
  rfl

theorem C7_witness :
    connectResult (liveWorld none [(none, permErr)]) = .ok 1 ∧
    stdoutWrites (runErr (liveWorld none [(none, permErr)])).2.trace
      = ["nc.LastError:  " ++ "<nil>" ++ "\n"] :=
  ⟨rfl, C7_nil_lastError_prints_nil (liveWorld none [(none, permErr)]) 1 rfl rfl⟩

/-- C8: called with any connection, any subscription (or none) and any error e,
the callback performs exactly one effect, the log message "Async Error: "
followed by the text of e, and returns. The connection and the subscription
play no part in it, and at the level of the process it adds that one entry to
the trace and leaves the rest of the state (the open connections, the errors
raised) as it was. -/
theorem C8_observer_logs_once (nc : ConnId) (sub : Option SubId) (e : GoError)
    (s : ProcState) :
    ErrAsyncErrorCB nc sub (some e)
      = ⟨[.logOutput ("Async Error: " ++ e.text)], .returned ()⟩ ∧
    Proc.onThread .callback (ErrAsyncErrorCB nc sub (some e)) s
      = (.returned (),
          ⟨s.trace ++ [Event.eff .callback (.logOutput ("Async Error: " ++ e.text))],
            s.conns, s.raised⟩) := by
  simp [ErrAsyncErrorCB, log.Printf, Go.emit, Sprintf_asyncError, Proc.onThread]

/-- C9: in every run the connect operation is called exactly once, at most one
connection is ever open, and every publish, flush and read of `LastError` in
the trace is issued on the connection that this one connect call returned. -/
theorem C9_single_connection (w : World) :
    (runErr w).2.trace.countP Event.isConnect = 1 ∧
    (runErr w).2.conns.length ≤ 1 ∧
    ∀ ev ∈ (runErr w).2.trace, ∀ c, ev.conn? = some c →
      connectResult w = .ok c ∧ (runErr w).2.conns.map nats.Conn.id = [c] := by
  cases h : connectResult w with
  | error e =>
    rw [runErr, Err_run_fail w e h]
    refine ⟨rfl, by simp, ?_⟩
    intro ev hev c hc
    simp only [failTrace, List.mem_cons, List.mem_singleton, List.not_mem_nil, or_false] at hev
    rcases hev with h1 | h1 | h1 <;> subst h1 <;> cases hc
  | ok id =>
    rw [runErr, Err_run_ok w id h]
    refine ⟨connect_okTrace w id, by simp, ?_⟩
    intro ev hev c hc
    have := conn_okTrace w id ev c hev hc
    subst this
    exact ⟨rfl, rfl⟩

theorem C9_witness :
    (runErr (liveWorld (some permErr) [(none, permErr)])).2.trace.countP Event.isConnect = 1 ∧
    (runErr (liveWorld (some permErr) [(none, permErr)])).2.conns.length ≤ 1 ∧
    (runErr deadWorld).2.trace.countP Event.isConnect = 1 :=
  ⟨(C9_single_connection (liveWorld (some permErr) [(none, permErr)])).1,
    (C9_single_connection (liveWorld (some permErr) [(none, permErr)])).2.1,
    (C9_single_connection deadWorld).1⟩

/-- C10, as the spec states it, fails: the broker refuses the publish, the
callback is invoked with the permissions error while the main sequence flushes
and logs it, then the connection is lost and re-established during the delay,
which clears the recorded error. The `LastError` read at the report step is
nil and the final line shows "<nil>", not the text given to the callback. -/
theorem C10_counterexample :
    connectResult reconnectWorld = .ok 1 ∧
    (none, permErr) ∈ observedBeforeReport reconnectWorld 1 ∧
    Event.eff .callback (.logOutput ("Async Error: " ++ permErr.text))
      ∈ (runErr reconnectWorld).2.trace ∧
    reconnectWorld.lastError 1 = none ∧
    stdoutWrites (runErr reconnectWorld).2.trace
      ≠ ["nc.LastError:  " ++ permErr.text ++ "\n"] ∧
    stdoutWrites (runErr reconnectWorld).2.trace = ["nc.LastError:  <nil>\n"] := by
  have h : connectResult reconnectWorld = .ok 1 := rfl
  have hobs : (none, permErr) ∈ observedBeforeReport reconnectWorld 1 := by
    simp [observedBeforeReport, reconnectWorld]
  rw [runErr, Err_run_ok _ 1 h, stdoutWrites_okTrace]
  exact ⟨rfl, hobs, observed_okTrace _ 1 none permErr hobs, rfl, by decide, by decide⟩

/-- C10, amended: when the connection keeps as `LastError` the most recent
asynchronous error raised on it (nothing replaces or clears it, as on a
connection that stays up) and e is the last error the callback was invoked
with before the delay elapsed, then the callback logged "Async Error: e", the
`LastError` read at the report step is non-nil, and the final line is the
label followed by the text of e. -/
theorem C10_last_observed_is_printed (w : World) (id : ConnId) (sub : Option SubId)
    (e : GoError) (h : connectResult w = .ok id) (hlib : RecordsLastRaised w id)
    (hobs : (observedBeforeReport w id).getLast? = some (sub, e)) :
    Event.eff .callback (.logOutput ("Async Error: " ++ e.text)) ∈ (runErr w).2.trace ∧
    w.lastError id ≠ none ∧
    stdoutWrites (runErr w).2.trace = ["nc.LastError:  " ++ e.text ++ "\n"] := by
  have hlast : w.lastError id = some e := by
    rw [World.lastError, hlib, hobs]
    rfl
  have hmem : (sub, e) ∈ observedBeforeReport w id := List.mem_of_getLast?_eq_some hobs
  rw [runErr, Err_run_ok w id h, stdoutWrites_okTrace, hlast]
  exact ⟨observed_okTrace w id sub e hmem, by simp, rfl⟩

theorem C10_witness :
    connectResult refusedWorld = .ok 1 ∧
    RecordsLastRaised refusedWorld 1 ∧
    (observedBeforeReport refusedWorld 1).getLast? = some (none, permErr) ∧
    stdoutWrites (runErr refusedWorld).2.trace
      = ["nc.LastError:  " ++ permErr.text ++ "\n"] :=
  ⟨rfl, fun _ => rfl, rfl,
    (C10_last_observed_is_printed refusedWorld 1 none permErr rfl (fun _ => rfl) rfl).2.2⟩

/-- The read of `LastError` comes after the delay: in the world where the
refusal is raised while the main sequence sleeps, the library would still
answer nil to a read made before the sleep, and the run prints the error. -/
theorem refusedWorld_read_after_sleep :
    refusedWorld.lastErrorAfter 1
      (refusedWorld.async 1 .publish ++ refusedWorld.async 1 .flush) = none ∧
    stdoutWrites (runErr refusedWorld).2.trace
      = ["nc.LastError:  nats: permissions violation for publish\n"] := by
  have h : connectResult refusedWorld = .ok 1 := rfl
  rw [runErr, Err_run_ok _ 1 h, stdoutWrites_okTrace]
  exact ⟨rfl, by decide⟩

end NatsErr
